import Mathlib

/-!
# DewPointThermometer: `DataUploader.h`

A shallow embedding of the two uploader classes of `src/DataUploader.h`
(`AdafruitUploader` and `ThingSpeakUploader`) together with the `SensorData`
record they consume.

Every member function is a pure function from the object state (and its
arguments) to the new object state and the list of externally visible calls it
makes, in program order: `Serial` output, calls on the Adafruit IO connection
and its feeds, and the `setField` and `writeFields` calls on the global
`ThingSpeak` object.  `ThingSpeakUploader::begin`, which only hands `*client`
to the library, is not embedded.
-/

namespace DataUploader

/-! ## Values -/

/-- A C++ `float` as far as this header looks at it: the header stores floats,
passes them on and compares one of them with `0`.  A float is a NaN, an
infinity or a finite number; the two signed zeros compare equal to `0` and to
each other and are both `finite 0`. -/
inductive FloatVal where
  | nan
  | negInf
  | posInf
  | finite (q : ℚ)
deriving DecidableEq

/-- The C++ comparison `x > 0` on a float: false for NaN. -/
def FloatVal.gtZero : FloatVal → Bool
  | .nan => false
  | .negInf => false
  | .posInf => true
  | .finite q => decide (0 < q)

/-- The record `struct SensorData`. -/
structure SensorData where
  indoorTemp : FloatVal
  indoorHum : FloatVal
  indoorDew : FloatVal
  outdoorTemp : FloatVal
  outdoorHum : FloatVal
  outdoorDew : FloatVal
  indoorDataValid : Bool
  outdoorDataValid : Bool
  batteryVoltage : FloatVal
deriving DecidableEq

/-! ## The external objects -/

/-- An `AdafruitIO_Feed` object: what an `AdafruitIO_Feed *` that is not
`nullptr` points to.  The library class is not part of this header; a feed
object is bound to the remote feed whose key is `name`. -/
structure AdafruitIO_Feed where
  name : String
deriving DecidableEq

/-- Modelled from the spec: the Adafruit IO connection class, which is not part
of this header.  It exposes `feed(name) -> FeedHandle`, a handle being either
unresolved (`nullptr`) or bound to the named remote feed; `resolves name` says
whether `feed(name)` yields a handle. -/
structure AdafruitIO where
  resolves : String → Bool

/-- Modelled from the spec: `io->feed(name)`, `none` being `nullptr`. -/
def AdafruitIO.feed (io : AdafruitIO) (name : String) : Option AdafruitIO_Feed :=
  if io.resolves name then some ⟨name⟩ else none

/-- The externally visible calls of the header, in the order they are made. -/
inductive Effect where
  /-- The call `Serial.print(text)`. -/
  | print (text : String)
  /-- The call `Serial.println(text)`. -/
  | println (text : String)
  /-- The call `Serial.print(x)` for a float `x`. -/
  | printFloat (x : FloatVal)
  /-- The call `Serial.println(x)` for a float `x`. -/
  | printlnFloat (x : FloatVal)
  /-- The call `Serial.println(n)` for an int `n`. -/
  | printlnInt (n : Int)
  /-- The call `io->feed(name)`. -/
  | feed (name : String)
  /-- The call `io->run()`. -/
  | ioRun
  /-- The call `f->save(x)` on the feed object `f`. -/
  | save (f : AdafruitIO_Feed) (x : FloatVal)
  /-- The call `ThingSpeak.setField(slot, x)`. -/
  | setField (slot : Nat) (x : FloatVal)
  /-- The call `ThingSpeak.writeFields(channelID, writeAPIKey)`. -/
  | writeFields (channelID : Nat) (writeAPIKey : String)
deriving DecidableEq

/-! ## `class AdafruitUploader` -/

/-- The private members of `AdafruitUploader`; `none` is `nullptr`. -/
structure AdafruitUploader where
  io : Option AdafruitIO
  feedsInitialized : Bool
  indoorTempFeed : Option AdafruitIO_Feed
  indoorHumFeed : Option AdafruitIO_Feed
  indoorDewFeed : Option AdafruitIO_Feed
  outdoorTempFeed : Option AdafruitIO_Feed
  outdoorHumFeed : Option AdafruitIO_Feed
  outdoorDewFeed : Option AdafruitIO_Feed
  batteryVoltageFeed : Option AdafruitIO_Feed

/-- The constructor `AdafruitUploader(AdafruitIO *io)`. -/
def AdafruitUploader.new (io : Option AdafruitIO) : AdafruitUploader :=
  { io := io
    feedsInitialized := false
    indoorTempFeed := none
    indoorHumFeed := none
    indoorDewFeed := none
    outdoorTempFeed := none
    outdoorHumFeed := none
    outdoorDewFeed := none
    batteryVoltageFeed := none }

/-- The member `AdafruitUploader::begin()`. -/
def AdafruitUploader.begin (s : AdafruitUploader) : AdafruitUploader × List Effect :=
  match s.io with
  | some io =>
    if !s.feedsInitialized then
      ({ s with
          indoorTempFeed := io.feed "indoortemp"
          indoorHumFeed := io.feed "indoorhum"
          indoorDewFeed := io.feed "indoordp"
          outdoorTempFeed := io.feed "outdoortemp"
          outdoorHumFeed := io.feed "outdoorhum"
          outdoorDewFeed := io.feed "outdoordp"
          batteryVoltageFeed := io.feed "batteryvoltage"
          feedsInitialized := true },
       [ Effect.println "Initializing Adafruit IO feeds...",
         Effect.feed "indoortemp",
         Effect.feed "indoorhum",
         Effect.feed "indoordp",
         Effect.feed "outdoortemp",
         Effect.feed "outdoorhum",
         Effect.feed "outdoordp",
         Effect.feed "batteryvoltage",
         Effect.println "Adafruit IO feeds initialized." ])
    else (s, [])
  | none => (s, [])

/-- The member `AdafruitUploader::run()`. -/
def AdafruitUploader.run (s : AdafruitUploader) : AdafruitUploader × List Effect :=
  match s.io with
  | some _ => (s, [Effect.ioRun])
  | none => (s, [])

/-- The outdoor block of `AdafruitUploader::uploadData`. -/
def AdafruitUploader.uploadOutdoor (s : AdafruitUploader) (data : SensorData) : List Effect :=
  match data.outdoorDataValid, s.outdoorTempFeed, s.outdoorHumFeed, s.outdoorDewFeed with
  | true, some t, some h, some w =>
    [ Effect.print "Uploading outdoor data: Temp=",
      Effect.printFloat data.outdoorTemp,
      Effect.print " Hum=",
      Effect.printFloat data.outdoorHum,
      Effect.print " Dew=",
      Effect.printlnFloat data.outdoorDew,
      Effect.save t data.outdoorTemp,
      Effect.save h data.outdoorHum,
      Effect.save w data.outdoorDew ]
  | _, _, _, _ => [Effect.println "Outdoor data not valid or feeds not initialized."]

/-- The indoor block of `AdafruitUploader::uploadData`. -/
def AdafruitUploader.uploadIndoor (s : AdafruitUploader) (data : SensorData) : List Effect :=
  match data.indoorDataValid, s.indoorTempFeed, s.indoorHumFeed, s.indoorDewFeed with
  | true, some t, some h, some w =>
    [ Effect.print "Uploading indoor data: Temp=",
      Effect.printFloat data.indoorTemp,
      Effect.print " Hum=",
      Effect.printFloat data.indoorHum,
      Effect.print " Dew=",
      Effect.printlnFloat data.indoorDew,
      Effect.save t data.indoorTemp,
      Effect.save h data.indoorHum,
      Effect.save w data.indoorDew ]
  | _, _, _, _ => [Effect.println "Indoor data not valid or feeds not initialized."]

/-- The battery block of `AdafruitUploader::uploadData`. -/
def AdafruitUploader.uploadBattery (s : AdafruitUploader) (data : SensorData) : List Effect :=
  [ Effect.print "Uploading battery voltage: ",
    Effect.printlnFloat data.batteryVoltage ] ++
  (match s.batteryVoltageFeed with
   | some b => [Effect.save b data.batteryVoltage]
   | none => [Effect.println "Battery voltage feed not initialized."])

/-- The member `AdafruitUploader::uploadData(const SensorData &data)`. -/
def AdafruitUploader.uploadData (s : AdafruitUploader) (data : SensorData) :
    AdafruitUploader × List Effect :=
  match s.io with
  | none => (s, [Effect.println "Error: IO object is null in AdafruitUploader."])
  | some _ => (s, s.uploadOutdoor data ++ s.uploadIndoor data ++ s.uploadBattery data)

/-- One call of a member function of `AdafruitUploader`. -/
inductive Call where
  | begin
  | run
  | uploadData (data : SensorData)
deriving DecidableEq

/-- The call `c` made on the adapter `s`. -/
def AdafruitUploader.call (s : AdafruitUploader) : Call → AdafruitUploader × List Effect
  | .begin => s.begin
  | .run => s.run
  | .uploadData data => s.uploadData data

/-- A sequence of calls made on the adapter `s`, one after the other: the final
state and the trace of the whole sequence. -/
def AdafruitUploader.calls (s : AdafruitUploader) : List Call → AdafruitUploader × List Effect
  | [] => (s, [])
  | c :: cs => (((s.call c).1.calls cs).1, (s.call c).2 ++ ((s.call c).1.calls cs).2)

/-- The seven feed keys, in the order `begin()` resolves them. -/
def feedKeys : List String :=
  ["indoortemp", "indoorhum", "indoordp", "outdoortemp", "outdoorhum", "outdoordp",
    "batteryvoltage"]

/-- The lifecycle invariant of `AdafruitUploader`: either nothing is resolved,
or the flag is set, all seven handles are resolved and the connection is not
null. -/
def AdafruitUploader.Lifecycle (s : AdafruitUploader) : Prop :=
  (s.feedsInitialized = false ∧
    s.indoorTempFeed = none ∧ s.indoorHumFeed = none ∧ s.indoorDewFeed = none ∧
    s.outdoorTempFeed = none ∧ s.outdoorHumFeed = none ∧ s.outdoorDewFeed = none ∧
    s.batteryVoltageFeed = none) ∨
  (s.feedsInitialized = true ∧
    s.indoorTempFeed.isSome = true ∧ s.indoorHumFeed.isSome = true ∧
    s.indoorDewFeed.isSome = true ∧
    s.outdoorTempFeed.isSome = true ∧ s.outdoorHumFeed.isSome = true ∧
    s.outdoorDewFeed.isSome = true ∧
    s.batteryVoltageFeed.isSome = true ∧ s.io.isSome = true)

/-! ## `class ThingSpeakUploader` -/

/-- The private members of `ThingSpeakUploader`; a `none` client is `nullptr`. -/
structure ThingSpeakUploader where
  client : Option Nat
  channelID : Nat
  writeAPIKey : String
deriving DecidableEq

/-- The constructor `ThingSpeakUploader(Client *, unsigned long, const char *)`. -/
def ThingSpeakUploader.new (client : Option Nat) (channelID : Nat) (writeAPIKey : String) :
    ThingSpeakUploader :=
  { client := client, channelID := channelID, writeAPIKey := writeAPIKey }

/-- The staging part of `ThingSpeakUploader::uploadData`: the `setField` calls
and the final value of the local `updateData`. -/
def ThingSpeakUploader.stage (data : SensorData) : List Effect × Bool :=
  let updateData := false
  let (e1, updateData) :=
    if data.indoorDataValid then
      ([ Effect.setField 1 data.indoorTemp,
         Effect.setField 2 data.indoorHum,
         Effect.setField 3 data.indoorDew ], true)
    else ([], updateData)
  let (e2, updateData) :=
    if data.outdoorDataValid then
      ([ Effect.setField 4 data.outdoorTemp,
         Effect.setField 5 data.outdoorHum,
         Effect.setField 6 data.outdoorDew ], true)
    else ([], updateData)
  let (e3, updateData) :=
    if data.batteryVoltage.gtZero then
      ([Effect.setField 7 data.batteryVoltage], true)
    else ([], updateData)
  (e1 ++ e2 ++ e3, updateData)

/-- The member `ThingSpeakUploader::uploadData(const SensorData &data)`.
`responseCode` is the value `ThingSpeak.writeFields` returns when it is
called. -/
def ThingSpeakUploader.uploadData (s : ThingSpeakUploader) (data : SensorData)
    (responseCode : Int) : ThingSpeakUploader × List Effect :=
  let (staged, updateData) := ThingSpeakUploader.stage data
  if updateData then
    (s, staged ++ [Effect.writeFields s.channelID s.writeAPIKey] ++
      (if responseCode = 200 then
        [Effect.println "ThingSpeak update successful."]
      else
        [ Effect.print "ThingSpeak update error. HTTP error code: ",
          Effect.printlnInt responseCode ]))
  else
    (s, staged ++ [Effect.println "No valid data to update on ThingSpeak."])

/-- The record of the scenario: indoor `(20.0, 50.0, 9.0)` valid, outdoor
invalid, battery `0`. -/
def scenarioRecord : SensorData :=
  { indoorTemp := .finite 20
    indoorHum := .finite 50
    indoorDew := .finite 9
    outdoorTemp := .finite 0
    outdoorHum := .finite 0
    outdoorDew := .finite 0
    indoorDataValid := true
    outdoorDataValid := false
    batteryVoltage := .finite 0 }

/-- A connection on which every feed resolves. -/
def liveConnection : AdafruitIO :=
  ⟨fun _ => true⟩

/-- The slot mapping as the specification words it: indoor
temperature/humidity/dew into slots 1/2/3 if `indoorDataValid`, then outdoor
temperature/humidity/dew into slots 4/5/6 if `outdoorDataValid`, then the
battery voltage into slot 7 if it is `> 0`. -/
def slotMapping (data : SensorData) : List (Nat × FloatVal) :=
  (if data.indoorDataValid then
    [(1, data.indoorTemp), (2, data.indoorHum), (3, data.indoorDew)] else []) ++
  (if data.outdoorDataValid then
    [(4, data.outdoorTemp), (5, data.outdoorHum), (6, data.outdoorDew)] else []) ++
  (if data.batteryVoltage.gtZero then [(7, data.batteryVoltage)] else [])

/-! ## Reading a trace -/

/-- The `save` calls of a trace, in order: the feed object and the value. -/
def saves (es : List Effect) : List (AdafruitIO_Feed × FloatVal) :=
  es.filterMap fun e =>
    match e with
    | .save f x => some (f, x)
    | _ => none

/-- The `io->feed(name)` calls of a trace, in order: the feed keys. -/
def feedCalls (es : List Effect) : List String :=
  es.filterMap fun e =>
    match e with
    | .feed name => some name
    | _ => none

/-- The `ThingSpeak.setField` calls of a trace, in order: slot and value. -/
def setFields (es : List Effect) : List (Nat × FloatVal) :=
  es.filterMap fun e =>
    match e with
    | .setField slot x => some (slot, x)
    | _ => none

/-- The `ThingSpeak.writeFields` calls of a trace, in order: channel and key. -/
def writes (es : List Effect) : List (Nat × String) :=
  es.filterMap fun e =>
    match e with
    | .writeFields c k => some (c, k)
    | _ => none

/-! ## The states an `AdafruitUploader` can be in -/

/-- Every call leaves an adapter without connection as the constructor made it. -/
theorem call_new_none (c : Call) :
    ((AdafruitUploader.new none).call c).1 = AdafruitUploader.new none := by
  cases c <;> rfl

/-- Every sequence of calls leaves an adapter without connection as the
constructor made it. -/
theorem calls_new_none (cs : List Call) :
    ((AdafruitUploader.new none).calls cs).1 = AdafruitUploader.new none := by
  induction cs with
  | nil => rfl
  | cons c cs ih =>
    simp only [AdafruitUploader.calls]
    rw [call_new_none, ih]

/-- Once `begin()` has run on a connection, no call changes the adapter. -/
theorem call_begun (io : AdafruitIO) (c : Call) :
    (((AdafruitUploader.new (some io)).begin).1.call c).1 =
      ((AdafruitUploader.new (some io)).begin).1 := by
  cases c <;> rfl

/-- Once `begin()` has run on a connection, no sequence of calls changes the
adapter. -/
theorem calls_begun (io : AdafruitIO) (cs : List Call) :
    (((AdafruitUploader.new (some io)).begin).1.calls cs).1 =
      ((AdafruitUploader.new (some io)).begin).1 := by
  induction cs with
  | nil => rfl
  | cons c cs ih =>
    simp only [AdafruitUploader.calls]
    rw [call_begun, ih]

/-- An adapter with a connection is, after any sequence of calls, either as the
constructor made it (no `begin()` in the sequence) or as its first `begin()`
left it. -/
theorem calls_new_some (io : AdafruitIO) (cs : List Call) :
    ((AdafruitUploader.new (some io)).calls cs).1 =
      if Call.begin ∈ cs then ((AdafruitUploader.new (some io)).begin).1
      else AdafruitUploader.new (some io) := by
  induction cs with
  | nil => rfl
  | cons c cs ih =>
    simp only [AdafruitUploader.calls]
    cases c with
    | begin =>
      simp only [AdafruitUploader.call, calls_begun, List.mem_cons, true_or, if_true]
    | run =>
      have h : ((AdafruitUploader.new (some io)).call Call.run).1 =
          AdafruitUploader.new (some io) := rfl
      rw [h, ih]
      simp
    | uploadData d =>
      have h : ((AdafruitUploader.new (some io)).call (Call.uploadData d)).1 =
          AdafruitUploader.new (some io) := rfl
      rw [h, ih]
      simp

/-- The trace of `uploadData` is made of its three blocks when there is a
connection. -/
theorem uploadData_trace_of_io (s : AdafruitUploader) (data : SensorData)
    (h : s.io.isSome = true) :
    (s.uploadData data).2 = s.uploadOutdoor data ++ s.uploadIndoor data ++ s.uploadBattery data := by
  unfold AdafruitUploader.uploadData
  cases hio : s.io with
  | none => simp [hio] at h
  | some c => rfl

/-- The saves of the outdoor block once `begin()` has run. -/
theorem saves_uploadOutdoor_begun (io : AdafruitIO) (data : SensorData) :
    saves (((AdafruitUploader.new (some io)).begin).1.uploadOutdoor data) =
      if (data.outdoorDataValid && io.resolves "outdoortemp" && io.resolves "outdoorhum" &&
          io.resolves "outdoordp") = true then
        [ ((⟨"outdoortemp"⟩ : AdafruitIO_Feed), data.outdoorTemp),
          (⟨"outdoorhum"⟩, data.outdoorHum),
          (⟨"outdoordp"⟩, data.outdoorDew) ]
      else [] := by
  cases hv : data.outdoorDataValid <;> cases h1 : io.resolves "outdoortemp" <;>
    cases h2 : io.resolves "outdoorhum" <;> cases h3 : io.resolves "outdoordp" <;>
    simp [AdafruitUploader.uploadOutdoor, AdafruitUploader.begin, AdafruitUploader.new,
      AdafruitIO.feed, saves, hv, h1, h2, h3]

/-- The saves of the indoor block once `begin()` has run. -/
theorem saves_uploadIndoor_begun (io : AdafruitIO) (data : SensorData) :
    saves (((AdafruitUploader.new (some io)).begin).1.uploadIndoor data) =
      if (data.indoorDataValid && io.resolves "indoortemp" && io.resolves "indoorhum" &&
          io.resolves "indoordp") = true then
        [ ((⟨"indoortemp"⟩ : AdafruitIO_Feed), data.indoorTemp),
          (⟨"indoorhum"⟩, data.indoorHum),
          (⟨"indoordp"⟩, data.indoorDew) ]
      else [] := by
  cases hv : data.indoorDataValid <;> cases h1 : io.resolves "indoortemp" <;>
    cases h2 : io.resolves "indoorhum" <;> cases h3 : io.resolves "indoordp" <;>
    simp [AdafruitUploader.uploadIndoor, AdafruitUploader.begin, AdafruitUploader.new,
      AdafruitIO.feed, saves, hv, h1, h2, h3]

/-- The saves of the battery block once `begin()` has run. -/
theorem saves_uploadBattery_begun (io : AdafruitIO) (data : SensorData) :
    saves (((AdafruitUploader.new (some io)).begin).1.uploadBattery data) =
      if io.resolves "batteryvoltage" = true then
        [((⟨"batteryvoltage"⟩ : AdafruitIO_Feed), data.batteryVoltage)]
      else [] := by
  cases h1 : io.resolves "batteryvoltage" <;>
    simp [AdafruitUploader.uploadBattery, AdafruitUploader.begin, AdafruitUploader.new,
      AdafruitIO.feed, saves, h1]

/-- The saves of `uploadData` once `begin()` has run: outdoor, indoor, battery. -/
theorem saves_uploadData_begun (io : AdafruitIO) (data : SensorData) :
    saves (((AdafruitUploader.new (some io)).begin).1.uploadData data).2 =
      (if (data.outdoorDataValid && io.resolves "outdoortemp" && io.resolves "outdoorhum" &&
          io.resolves "outdoordp") = true then
        [ ((⟨"outdoortemp"⟩ : AdafruitIO_Feed), data.outdoorTemp),
          (⟨"outdoorhum"⟩, data.outdoorHum),
          (⟨"outdoordp"⟩, data.outdoorDew) ]
      else []) ++
      (if (data.indoorDataValid && io.resolves "indoortemp" && io.resolves "indoorhum" &&
          io.resolves "indoordp") = true then
        [ ((⟨"indoortemp"⟩ : AdafruitIO_Feed), data.indoorTemp),
          (⟨"indoorhum"⟩, data.indoorHum),
          (⟨"indoordp"⟩, data.indoorDew) ]
      else []) ++
      (if io.resolves "batteryvoltage" = true then
        [((⟨"batteryvoltage"⟩ : AdafruitIO_Feed), data.batteryVoltage)]
      else []) := by
  rw [uploadData_trace_of_io ((AdafruitUploader.new (some io)).begin).1 data rfl]
  unfold saves
  rw [List.filterMap_append, List.filterMap_append]
  exact congrArg₂ (· ++ ·)
    (congrArg₂ (· ++ ·) (saves_uploadOutdoor_begun io data) (saves_uploadIndoor_begun io data))
    (saves_uploadBattery_begun io data)

/-- Before `begin()` has run, `uploadData` saves nothing. -/
theorem saves_uploadData_new (io : Option AdafruitIO) (data : SensorData) :
    saves ((AdafruitUploader.new io).uploadData data).2 = [] := by
  rcases data with ⟨it, ih, iw, ot, oh, ow, iv, ov, bv⟩
  cases io <;> cases iv <;> cases ov <;> rfl

/-- The states an adapter can reach from its constructor. -/
theorem calls_new_cases (io : Option AdafruitIO) (cs : List Call) :
    ((AdafruitUploader.new io).calls cs).1 = AdafruitUploader.new io ∨
    ∃ c, io = some c ∧ Call.begin ∈ cs ∧
      ((AdafruitUploader.new io).calls cs).1 = ((AdafruitUploader.new (some c)).begin).1 := by
  cases io with
  | none => exact Or.inl (calls_new_none cs)
  | some c =>
    rw [calls_new_some]
    by_cases h : Call.begin ∈ cs
    · exact Or.inr ⟨c, rfl, h, by simp [h]⟩
    · exact Or.inl (by simp [h])

/-- The feed a save goes to, once `begin()` has run: an outdoor feed only if
the outdoor flag is set, an indoor feed only if the indoor flag is set, or the
battery feed. -/
theorem mem_saves_uploadData_begun (io : AdafruitIO) (data : SensorData)
    (p : AdafruitIO_Feed × FloatVal)
    (hp : p ∈ saves (((AdafruitUploader.new (some io)).begin).1.uploadData data).2) :
    (data.outdoorDataValid = true ∧
      (p.1.name = "outdoortemp" ∨ p.1.name = "outdoorhum" ∨ p.1.name = "outdoordp")) ∨
    (data.indoorDataValid = true ∧
      (p.1.name = "indoortemp" ∨ p.1.name = "indoorhum" ∨ p.1.name = "indoordp")) ∨
    p.1.name = "batteryvoltage" := by
  rw [saves_uploadData_begun, List.mem_append, List.mem_append] at hp
  rcases hp with (hp | hp) | hp
  · split_ifs at hp with h
    · simp only [Bool.and_eq_true] at h
      simp only [List.mem_cons, List.mem_singleton, List.not_mem_nil, or_false] at hp
      rcases hp with rfl | rfl | rfl <;> simp [h.1.1.1]
    · simp at hp
  · split_ifs at hp with h
    · simp only [Bool.and_eq_true] at h
      simp only [List.mem_cons, List.mem_singleton, List.not_mem_nil, or_false] at hp
      rcases hp with rfl | rfl | rfl <;> simp [h.1.1.1]
    · simp at hp
  · split_ifs at hp with h
    · simp only [List.mem_singleton] at hp
      subst hp
      simp
    · simp at hp

/-- The trace of `uploadData` once `begin()` has run on a connection that
resolves the seven feed keys. -/
theorem uploadData_begun_resolved (io : AdafruitIO) (data : SensorData)
    (hres : ∀ n ∈ feedKeys, io.resolves n = true) :
    (((AdafruitUploader.new (some io)).begin).1.uploadData data).2 =
      (if data.outdoorDataValid = true then
        [ Effect.print "Uploading outdoor data: Temp=",
          Effect.printFloat data.outdoorTemp,
          Effect.print " Hum=",
          Effect.printFloat data.outdoorHum,
          Effect.print " Dew=",
          Effect.printlnFloat data.outdoorDew,
          Effect.save ⟨"outdoortemp"⟩ data.outdoorTemp,
          Effect.save ⟨"outdoorhum"⟩ data.outdoorHum,
          Effect.save ⟨"outdoordp"⟩ data.outdoorDew ]
      else [Effect.println "Outdoor data not valid or feeds not initialized."]) ++
      (if data.indoorDataValid = true then
        [ Effect.print "Uploading indoor data: Temp=",
          Effect.printFloat data.indoorTemp,
          Effect.print " Hum=",
          Effect.printFloat data.indoorHum,
          Effect.print " Dew=",
          Effect.printlnFloat data.indoorDew,
          Effect.save ⟨"indoortemp"⟩ data.indoorTemp,
          Effect.save ⟨"indoorhum"⟩ data.indoorHum,
          Effect.save ⟨"indoordp"⟩ data.indoorDew ]
      else [Effect.println "Indoor data not valid or feeds not initialized."]) ++
      [ Effect.print "Uploading battery voltage: ",
        Effect.printlnFloat data.batteryVoltage,
        Effect.save ⟨"batteryvoltage"⟩ data.batteryVoltage ] := by
  have h1 : io.resolves "indoortemp" = true := hres _ (by simp [feedKeys])
  have h2 : io.resolves "indoorhum" = true := hres _ (by simp [feedKeys])
  have h3 : io.resolves "indoordp" = true := hres _ (by simp [feedKeys])
  have h4 : io.resolves "outdoortemp" = true := hres _ (by simp [feedKeys])
  have h5 : io.resolves "outdoorhum" = true := hres _ (by simp [feedKeys])
  have h6 : io.resolves "outdoordp" = true := hres _ (by simp [feedKeys])
  have h7 : io.resolves "batteryvoltage" = true := hres _ (by simp [feedKeys])
  rcases data with ⟨it, ih, iw, ot, oh, ow, iv, ov, bv⟩
  cases iv <;> cases ov <;>
    simp [AdafruitUploader.uploadData, AdafruitUploader.uploadOutdoor,
      AdafruitUploader.uploadIndoor, AdafruitUploader.uploadBattery, AdafruitUploader.begin,
      AdafruitUploader.new, AdafruitIO.feed, h1, h2, h3, h4, h5, h6, h7]

/-- The saves of `uploadData` once `begin()` has run on a connection that
resolves the seven feed keys. -/
theorem saves_uploadData_begun_resolved (io : AdafruitIO) (data : SensorData)
    (hres : ∀ n ∈ feedKeys, io.resolves n = true) :
    saves (((AdafruitUploader.new (some io)).begin).1.uploadData data).2 =
      (if data.outdoorDataValid = true then
        [ ((⟨"outdoortemp"⟩ : AdafruitIO_Feed), data.outdoorTemp),
          (⟨"outdoorhum"⟩, data.outdoorHum),
          (⟨"outdoordp"⟩, data.outdoorDew) ]
      else []) ++
      (if data.indoorDataValid = true then
        [ ((⟨"indoortemp"⟩ : AdafruitIO_Feed), data.indoorTemp),
          (⟨"indoorhum"⟩, data.indoorHum),
          (⟨"indoordp"⟩, data.indoorDew) ]
      else []) ++
      [((⟨"batteryvoltage"⟩ : AdafruitIO_Feed), data.batteryVoltage)] := by
  rw [uploadData_begun_resolved io data hres]
  cases data.outdoorDataValid <;> cases data.indoorDataValid <;> simp [saves]

/-- The lifecycle invariant holds once `begin()` has run on a connection that
resolves the seven feed keys. -/
theorem lifecycle_begun (io : AdafruitIO) (hres : ∀ n ∈ feedKeys, io.resolves n = true) :
    ((AdafruitUploader.new (some io)).begin).1.Lifecycle := by
  have h1 : io.resolves "indoortemp" = true := hres _ (by simp [feedKeys])
  have h2 : io.resolves "indoorhum" = true := hres _ (by simp [feedKeys])
  have h3 : io.resolves "indoordp" = true := hres _ (by simp [feedKeys])
  have h4 : io.resolves "outdoortemp" = true := hres _ (by simp [feedKeys])
  have h5 : io.resolves "outdoorhum" = true := hres _ (by simp [feedKeys])
  have h6 : io.resolves "outdoordp" = true := hres _ (by simp [feedKeys])
  have h7 : io.resolves "batteryvoltage" = true := hres _ (by simp [feedKeys])
  right
  simp [AdafruitUploader.begin, AdafruitUploader.new, AdafruitIO.feed,
    h1, h2, h3, h4, h5, h6, h7]

/-- The member `run()` never changes the adapter. -/
theorem run_state (s : AdafruitUploader) : (s.run).1 = s := by
  unfold AdafruitUploader.run
  cases s.io <;> rfl

/-- The member `uploadData` never changes the adapter. -/
theorem uploadData_state (s : AdafruitUploader) (data : SensorData) :
    (s.uploadData data).1 = s := by
  unfold AdafruitUploader.uploadData
  cases s.io <;> rfl

/-- The member `begin()` does not change an adapter whose feeds are initialized. -/
theorem begin_state_of_initialized (s : AdafruitUploader) (h : s.feedsInitialized = true) :
    (s.begin).1 = s := by
  unfold AdafruitUploader.begin
  cases s.io <;> simp [h]

/-! ## `ThingSpeakUploader::uploadData` -/

/-- The `setField` calls of `ThingSpeakUploader::uploadData` are those of the
slot mapping. -/
theorem setFields_uploadData (s : ThingSpeakUploader) (data : SensorData) (responseCode : Int) :
    setFields (s.uploadData data responseCode).2 = slotMapping data := by
  rcases data with ⟨it, ih, iw, ot, oh, ow, iv, ov, bv⟩
  by_cases hr : responseCode = 200 <;>
  cases iv <;> cases ov <;> cases hb : FloatVal.gtZero bv <;>
  simp [ThingSpeakUploader.uploadData, ThingSpeakUploader.stage, slotMapping, setFields, hb, hr]


/-- C1: `ThingSpeakUploader::uploadData` calls `writeFields` exactly once when
`indoorDataValid`, `outdoorDataValid` or `batteryVoltage > 0` holds, and not at
all otherwise; in that last case nothing is staged and the whole trace is the
diagnostic "No valid data to update on ThingSpeak.". -/
theorem thingSpeak_write_iff_some_data (s : ThingSpeakUploader) (data : SensorData)
    (responseCode : Int) :
    ((data.indoorDataValid = true ∨ data.outdoorDataValid = true ∨
        data.batteryVoltage.gtZero = true) →
      (writes (s.uploadData data responseCode).2).length = 1) ∧
    (¬ (data.indoorDataValid = true ∨ data.outdoorDataValid = true ∨
        data.batteryVoltage.gtZero = true) →
      (writes (s.uploadData data responseCode).2).length = 0 ∧
      setFields (s.uploadData data responseCode).2 = [] ∧
      (s.uploadData data responseCode).2 =
        [Effect.println "No valid data to update on ThingSpeak."]) := by
  rcases data with ⟨it, ih, iw, ot, oh, ow, iv, ov, bv⟩
  by_cases hr : responseCode = 200 <;>
  cases iv <;> cases ov <;> cases hb : FloatVal.gtZero bv <;>
  simp [ThingSpeakUploader.uploadData, ThingSpeakUploader.stage, writes, setFields, hb, hr]

/-- C1 at two records: the scenario record (indoor valid) gives one write, a
record with both flags false and battery `0` gives none. -/
theorem thingSpeak_write_iff_some_data_witness :
    (writes ((ThingSpeakUploader.new (some 1) 12345 "KEY").uploadData
        scenarioRecord 200).2).length = 1 ∧
    (writes ((ThingSpeakUploader.new (some 1) 12345 "KEY").uploadData
        { scenarioRecord with indoorDataValid := false } 200).2).length = 0 ∧
    ((ThingSpeakUploader.new (some 1) 12345 "KEY").uploadData
        { scenarioRecord with indoorDataValid := false } 200).2 =
      [Effect.println "No valid data to update on ThingSpeak."] :=
  ⟨(thingSpeak_write_iff_some_data (ThingSpeakUploader.new (some 1) 12345 "KEY")
      scenarioRecord 200).1 (Or.inl rfl),
   ((thingSpeak_write_iff_some_data (ThingSpeakUploader.new (some 1) 12345 "KEY")
      { scenarioRecord with indoorDataValid := false } 200).2 (by decide)).1,
   ((thingSpeak_write_iff_some_data (ThingSpeakUploader.new (some 1) 12345 "KEY")
      { scenarioRecord with indoorDataValid := false } 200).2 (by decide)).2.2⟩

/-- C4: `ThingSpeakUploader::uploadData` never stages a battery voltage equal
to `0` into slot 7, and stages a battery voltage `> 0` into slot 7 exactly
once, with that value, whatever the two validity flags are. -/
theorem thingSpeak_battery_slot (s : ThingSpeakUploader) (data : SensorData)
    (responseCode : Int) :
    (data.batteryVoltage = FloatVal.finite 0 →
      (setFields (s.uploadData data responseCode).2).filter (fun p => decide (p.1 = 7)) = []) ∧
    (data.batteryVoltage.gtZero = true →
      (setFields (s.uploadData data responseCode).2).filter (fun p => decide (p.1 = 7)) =
        [(7, data.batteryVoltage)]) := by
  rcases data with ⟨it, ih, iw, ot, oh, ow, iv, ov, bv⟩
  constructor
  · intro h0
    simp only at h0
    subst h0
    by_cases hr : responseCode = 200 <;> cases iv <;> cases ov <;>
      simp [ThingSpeakUploader.uploadData, ThingSpeakUploader.stage, setFields,
        FloatVal.gtZero, hr]
  · intro hb
    simp only at hb
    by_cases hr : responseCode = 200 <;> cases iv <;> cases ov <;>
      simp [ThingSpeakUploader.uploadData, ThingSpeakUploader.stage, setFields, hb, hr]

/-- C4 at the scenario record (battery `0`) and at the same record with battery
`37/10`. -/
theorem thingSpeak_battery_slot_witness :
    (setFields ((ThingSpeakUploader.new (some 1) 12345 "KEY").uploadData
        scenarioRecord 200).2).filter (fun p => decide (p.1 = 7)) = [] ∧
    (setFields ((ThingSpeakUploader.new (some 1) 12345 "KEY").uploadData
        { scenarioRecord with batteryVoltage := .finite (37 / 10) } 200).2).filter
        (fun p => decide (p.1 = 7)) = [(7, FloatVal.finite (37 / 10))] :=
  ⟨(thingSpeak_battery_slot (ThingSpeakUploader.new (some 1) 12345 "KEY")
      scenarioRecord 200).1 rfl,
   (thingSpeak_battery_slot (ThingSpeakUploader.new (some 1) 12345 "KEY")
      { scenarioRecord with batteryVoltage := .finite (37 / 10) } 200).2
      (by simp [FloatVal.gtZero])⟩

/-- C6: when `ThingSpeakUploader::uploadData` performs a write and
`writeFields` returns `responseCode`, the success line is printed exactly when
`responseCode = 200`; for every other code the trace ends with the error line
followed by the code itself, and for `200` no code is printed; the call returns
with the members `client`, `channelID` and `writeAPIKey` as they were. -/
theorem thingSpeak_result_reporting (s : ThingSpeakUploader) (data : SensorData)
    (responseCode : Int)
    (hw : writes (s.uploadData data responseCode).2 ≠ []) :
    (Effect.println "ThingSpeak update successful." ∈ (s.uploadData data responseCode).2 ↔
      responseCode = 200) ∧
    (responseCode ≠ 200 →
      [ Effect.print "ThingSpeak update error. HTTP error code: ",
        Effect.printlnInt responseCode ] <:+ (s.uploadData data responseCode).2) ∧
    (responseCode = 200 → ∀ n, Effect.printlnInt n ∉ (s.uploadData data responseCode).2) ∧
    (s.uploadData data responseCode).1 = s := by
  rcases data with ⟨it, ih, iw, ot, oh, ow, iv, ov, bv⟩
  by_cases hr : responseCode = 200 <;>
  cases iv <;> cases ov <;> cases hb : FloatVal.gtZero bv <;>
  simp [ThingSpeakUploader.uploadData, ThingSpeakUploader.stage, writes, hb, hr,
    List.suffix_cons_iff] at hw ⊢

/-- C6 at the scenario record with result code `401`. -/
theorem thingSpeak_result_reporting_witness :
    (Effect.println "ThingSpeak update successful." ∈
        ((ThingSpeakUploader.new (some 1) 12345 "KEY").uploadData scenarioRecord 401).2 ↔
      (401 : Int) = 200) ∧
    [ Effect.print "ThingSpeak update error. HTTP error code: ",
      Effect.printlnInt 401 ] <:+
      ((ThingSpeakUploader.new (some 1) 12345 "KEY").uploadData scenarioRecord 401).2 ∧
    ((ThingSpeakUploader.new (some 1) 12345 "KEY").uploadData scenarioRecord 401).1 =
      ThingSpeakUploader.new (some 1) 12345 "KEY" :=
  have h := thingSpeak_result_reporting (ThingSpeakUploader.new (some 1) 12345 "KEY")
    scenarioRecord 401 (by decide)
  ⟨h.1, h.2.1 (by decide), h.2.2.2⟩

/-- C8: the `setField` calls of `ThingSpeakUploader::uploadData` are exactly
those of the slot mapping, in its order; they are the first calls of the trace
and no slot is staged twice; when there is anything to send they are followed
by the one `writeFields` call, made with the channel ID and write key the
constructor received, and nothing is staged after it.  The scenario record
stages slots 1, 2, 3 only and sends one write. -/
theorem thingSpeak_slot_mapping (client : Option Nat) (channelID : Nat) (writeAPIKey : String)
    (data : SensorData) (responseCode : Int) :
    setFields ((ThingSpeakUploader.new client channelID writeAPIKey).uploadData
        data responseCode).2 = slotMapping data ∧
    ((slotMapping data).map Prod.fst).Nodup ∧
    (∃ rest,
      ((ThingSpeakUploader.new client channelID writeAPIKey).uploadData data responseCode).2 =
        (slotMapping data).map (fun p => Effect.setField p.1 p.2) ++ rest ∧
      setFields rest = [] ∧
      writes rest = writes ((ThingSpeakUploader.new client channelID writeAPIKey).uploadData
        data responseCode).2 ∧
      (slotMapping data ≠ [] →
        ∃ diag, rest = Effect.writeFields channelID writeAPIKey :: diag ∧ writes diag = [])) ∧
    setFields ((ThingSpeakUploader.new client channelID writeAPIKey).uploadData
        scenarioRecord responseCode).2 =
      [(1, FloatVal.finite 20), (2, FloatVal.finite 50), (3, FloatVal.finite 9)] ∧
    writes ((ThingSpeakUploader.new client channelID writeAPIKey).uploadData
        scenarioRecord responseCode).2 = [(channelID, writeAPIKey)] := by
  have hscen :
      setFields ((ThingSpeakUploader.new client channelID writeAPIKey).uploadData
          scenarioRecord responseCode).2 =
        [(1, FloatVal.finite 20), (2, FloatVal.finite 50), (3, FloatVal.finite 9)] ∧
      writes ((ThingSpeakUploader.new client channelID writeAPIKey).uploadData
          scenarioRecord responseCode).2 = [(channelID, writeAPIKey)] := by
    by_cases hr : responseCode = 200 <;>
    simp [ThingSpeakUploader.uploadData, ThingSpeakUploader.stage, ThingSpeakUploader.new,
      scenarioRecord, FloatVal.gtZero, writes, setFields, hr]
  refine ⟨?_, ?_, ?_, hscen⟩ <;>
  rcases data with ⟨it, ih, iw, ot, oh, ow, iv, ov, bv⟩ <;>
  by_cases hr : responseCode = 200 <;>
  cases iv <;> cases ov <;> cases hb : FloatVal.gtZero bv <;>
  simp [ThingSpeakUploader.uploadData, ThingSpeakUploader.stage, ThingSpeakUploader.new,
    slotMapping, writes, setFields, hb, hr]

/-- C8 at a record with all three groups present: slots 1 to 7 are staged in
order, which is not the empty staging. -/
theorem thingSpeak_slot_mapping_witness :
    setFields ((ThingSpeakUploader.new (some 1) 12345 "KEY").uploadData
        { scenarioRecord with outdoorDataValid := true, batteryVoltage := .finite 4 } 200).2 =
      [ (1, FloatVal.finite 20), (2, FloatVal.finite 50), (3, FloatVal.finite 9),
        (4, FloatVal.finite 0), (5, FloatVal.finite 0), (6, FloatVal.finite 0),
        (7, FloatVal.finite 4) ] :=
  (thingSpeak_slot_mapping (some 1) 12345 "KEY"
    { scenarioRecord with outdoorDataValid := true, batteryVoltage := .finite 4 } 200).1.trans
    (by decide)

/-! ## Both adapters -/

/-- C2: with `indoorDataValid = false`, `AdafruitUploader::uploadData` saves to
none of the feeds `indoortemp`, `indoorhum`, `indoordp` in any state the adapter
can reach from its constructor, and `ThingSpeakUploader::uploadData` stages none
of the slots 1, 2, 3; and in any state whatsoever the calls either adapter makes
are the same whatever `indoorTemp`, `indoorHum`, `indoorDew` hold.  With
`outdoorDataValid = false` the same holds of the feeds `outdoortemp`,
`outdoorhum`, `outdoordp`, of the slots 4, 5, 6 and of the outdoor values. -/
theorem validity_gating (io : Option AdafruitIO) (cs : List Call) (s : AdafruitUploader)
    (ts : ThingSpeakUploader) (data : SensorData) (responseCode : Int) (t h w : FloatVal) :
    (data.indoorDataValid = false →
      (∀ p ∈ saves (((AdafruitUploader.new io).calls cs).1.uploadData data).2,
        p.1.name ≠ "indoortemp" ∧ p.1.name ≠ "indoorhum" ∧ p.1.name ≠ "indoordp") ∧
      (∀ p ∈ setFields (ts.uploadData data responseCode).2, p.1 ≠ 1 ∧ p.1 ≠ 2 ∧ p.1 ≠ 3) ∧
      (s.uploadData { data with indoorTemp := t, indoorHum := h, indoorDew := w }).2 =
        (s.uploadData data).2 ∧
      (ts.uploadData { data with indoorTemp := t, indoorHum := h, indoorDew := w }
        responseCode).2 = (ts.uploadData data responseCode).2) ∧
    (data.outdoorDataValid = false →
      (∀ p ∈ saves (((AdafruitUploader.new io).calls cs).1.uploadData data).2,
        p.1.name ≠ "outdoortemp" ∧ p.1.name ≠ "outdoorhum" ∧ p.1.name ≠ "outdoordp") ∧
      (∀ p ∈ setFields (ts.uploadData data responseCode).2, p.1 ≠ 4 ∧ p.1 ≠ 5 ∧ p.1 ≠ 6) ∧
      (s.uploadData { data with outdoorTemp := t, outdoorHum := h, outdoorDew := w }).2 =
        (s.uploadData data).2 ∧
      (ts.uploadData { data with outdoorTemp := t, outdoorHum := h, outdoorDew := w }
        responseCode).2 = (ts.uploadData data responseCode).2) := by
  have hts : setFields (ts.uploadData data responseCode).2 = slotMapping data :=
    setFields_uploadData ts data responseCode
  refine ⟨fun hv => ⟨?_, ?_, ?_, ?_⟩, fun hv => ⟨?_, ?_, ?_, ?_⟩⟩
  · intro p hp
    rcases calls_new_cases io cs with h | ⟨c, rfl, -, h⟩
    · rw [h, saves_uploadData_new] at hp
      simp at hp
    · rw [h] at hp
      rcases mem_saves_uploadData_begun c data p hp with ⟨-, h1 | h1 | h1⟩ | ⟨h2, -⟩ | h1
      all_goals first
        | (rw [hv] at h2; exact absurd h2 (by decide))
        | (rw [h1]; decide)
  · rw [hts]
    intro p hp
    cases hb : data.batteryVoltage.gtZero <;> cases ho : data.outdoorDataValid <;>
      simp [slotMapping, hv, hb, ho] at hp <;>
      (try rcases hp with rfl | rfl | rfl | rfl) <;> simp
  · rcases data with ⟨it, ih, iw, ot, oh, ow, iv, ov, bv⟩
    simp only at hv
    subst hv
    unfold AdafruitUploader.uploadData
    cases s.io <;> rfl
  · rcases data with ⟨it, ih, iw, ot, oh, ow, iv, ov, bv⟩
    simp only at hv
    subst hv
    rfl
  · intro p hp
    rcases calls_new_cases io cs with h | ⟨c, rfl, -, h⟩
    · rw [h, saves_uploadData_new] at hp
      simp at hp
    · rw [h] at hp
      rcases mem_saves_uploadData_begun c data p hp with ⟨h2, -⟩ | ⟨-, h1 | h1 | h1⟩ | h1
      all_goals first
        | (rw [hv] at h2; exact absurd h2 (by decide))
        | (rw [h1]; decide)
  · rw [hts]
    intro p hp
    cases hb : data.batteryVoltage.gtZero <;> cases hi : data.indoorDataValid <;>
      simp [slotMapping, hv, hb, hi] at hp <;>
      (try rcases hp with rfl | rfl | rfl | rfl) <;> simp
  · rcases data with ⟨it, ih, iw, ot, oh, ow, iv, ov, bv⟩
    simp only at hv
    subst hv
    unfold AdafruitUploader.uploadData
    cases s.io <;> rfl
  · rcases data with ⟨it, ih, iw, ot, oh, ow, iv, ov, bv⟩
    simp only at hv
    subst hv
    rfl

/-- C2 at an adapter after `begin()` on a live connection: a record with only
the outdoor triple valid, and the scenario record, with only the indoor one. -/
theorem validity_gating_witness :
    (∀ p ∈ saves (((AdafruitUploader.new (some liveConnection)).calls [Call.begin]).1.uploadData
          { scenarioRecord with indoorDataValid := false, outdoorDataValid := true }).2,
        p.1.name ≠ "indoortemp" ∧ p.1.name ≠ "indoorhum" ∧ p.1.name ≠ "indoordp") ∧
    (∀ p ∈ setFields ((ThingSpeakUploader.new (some 1) 12345 "KEY").uploadData
          scenarioRecord 200).2, p.1 ≠ 4 ∧ p.1 ≠ 5 ∧ p.1 ≠ 6) :=
  ⟨((validity_gating (some liveConnection) [Call.begin]
      ((AdafruitUploader.new (some liveConnection)).begin).1
      (ThingSpeakUploader.new (some 1) 12345 "KEY")
      { scenarioRecord with indoorDataValid := false, outdoorDataValid := true } 200
      .nan .nan .nan).1 rfl).1,
   ((validity_gating (some liveConnection) [Call.begin]
      ((AdafruitUploader.new (some liveConnection)).begin).1
      (ThingSpeakUploader.new (some 1) 12345 "KEY") scenarioRecord 200
      .nan .nan .nan).2 rfl).2.1⟩

/-! ## `AdafruitUploader` -/

/-- C3: in every state the adapter can reach from its constructor in which the
battery feed handle is resolved, `AdafruitUploader::uploadData` makes exactly
one save to the feed `batteryvoltage`, of `data.batteryVoltage`, whatever that
value and the two validity flags are. -/
theorem adafruit_battery_saved (io : Option AdafruitIO) (cs : List Call) (data : SensorData)
    (hb : ((AdafruitUploader.new io).calls cs).1.batteryVoltageFeed.isSome = true) :
    (saves (((AdafruitUploader.new io).calls cs).1.uploadData data).2).filter
        (fun p => decide (p.1.name = "batteryvoltage")) =
      [(⟨"batteryvoltage"⟩, data.batteryVoltage)] := by
  rcases calls_new_cases io cs with h | ⟨c, rfl, -, h⟩
  · rw [h] at hb
    simp [AdafruitUploader.new] at hb
  · rw [h] at hb ⊢
    have hres : c.resolves "batteryvoltage" = true := by
      cases hr : c.resolves "batteryvoltage"
      · simp [AdafruitUploader.begin, AdafruitUploader.new, AdafruitIO.feed, hr] at hb
      · rfl
    rw [saves_uploadData_begun, hres, if_pos rfl]
    split_ifs <;> simp

/-- C3 at the scenario record, whose battery voltage is `0`, after `begin()` on
a live connection. -/
theorem adafruit_battery_saved_witness :
    (saves (((AdafruitUploader.new (some liveConnection)).calls [Call.begin]).1.uploadData
        scenarioRecord).2).filter (fun p => decide (p.1.name = "batteryvoltage")) =
      [(⟨"batteryvoltage"⟩, FloatVal.finite 0)] :=
  adafruit_battery_saved (some liveConnection) [Call.begin] scenarioRecord rfl

/-- C5: on a freshly constructed adapter with a connection, the first
`begin()` resolves the seven feed keys, each once; a second `begin()` makes no
call at all and returns the state the first one left, so that two `begin()`
calls in a row resolve each of the seven feeds exactly once in total. -/
theorem adafruit_begin_idempotent (io : AdafruitIO) :
    feedCalls ((AdafruitUploader.new (some io)).begin).2 = feedKeys ∧
    feedKeys.Nodup ∧
    ((AdafruitUploader.new (some io)).begin).1.begin =
      (((AdafruitUploader.new (some io)).begin).1, []) ∧
    feedCalls ((AdafruitUploader.new (some io)).calls [Call.begin, Call.begin]).2 = feedKeys ∧
    ((AdafruitUploader.new (some io)).calls [Call.begin, Call.begin]).1 =
      ((AdafruitUploader.new (some io)).calls [Call.begin]).1 :=
  ⟨rfl, by decide, rfl, rfl, rfl⟩

/-- C9: an adapter constructed with a null connection stays, over every
sequence of calls, in the state the constructor left (flag unset, no handle
resolved); the only call any sequence makes is the error line of `uploadData`,
so there is no service call, no feed resolution and no save; and in the state
reached `begin()` and `run()` do nothing, while `uploadData` prints the error
line and returns with the state unchanged, whatever the record. -/
theorem adafruit_null_connection_inert (cs : List Call) :
    ((AdafruitUploader.new none).calls cs).1 = AdafruitUploader.new none ∧
    (∀ e ∈ ((AdafruitUploader.new none).calls cs).2,
      e = Effect.println "Error: IO object is null in AdafruitUploader.") ∧
    ((AdafruitUploader.new none).calls cs).1.begin =
      (((AdafruitUploader.new none).calls cs).1, []) ∧
    ((AdafruitUploader.new none).calls cs).1.run =
      (((AdafruitUploader.new none).calls cs).1, []) ∧
    ∀ data, ((AdafruitUploader.new none).calls cs).1.uploadData data =
      (((AdafruitUploader.new none).calls cs).1,
        [Effect.println "Error: IO object is null in AdafruitUploader."]) := by
  refine ⟨calls_new_none cs, ?_, ?_, ?_, ?_⟩
  · induction cs with
    | nil => simp [AdafruitUploader.calls]
    | cons c cs ih =>
      intro e he
      simp only [AdafruitUploader.calls, call_new_none, List.mem_append] at he
      rcases he with he | he
      · cases c <;>
          simp [AdafruitUploader.call, AdafruitUploader.begin, AdafruitUploader.run,
            AdafruitUploader.uploadData, AdafruitUploader.new] at he
        exact he
      · exact ih e he
  · rw [calls_new_none]; rfl
  · rw [calls_new_none]; rfl
  · intro data
    rw [calls_new_none]; rfl

/-- C7: on an adapter whose connection resolves the seven feed keys, in any
state reached from the constructor in which the feeds are initialized, the
saves of `uploadData` are, in this order, the outdoor triple to `outdoortemp`,
`outdoorhum`, `outdoordp` if `outdoorDataValid`, the indoor triple to
`indoortemp`, `indoorhum`, `indoordp` if `indoorDataValid`, and the battery
voltage to `batteryvoltage`: `1 + 3*[outdoorDataValid] + 3*[indoorDataValid]`
saves.  On the scenario record the trace is the outdoor-skipped line, the
three indoor saves with their printout, and a battery save of `0`. -/
theorem adafruit_saves_when_resolved (io : AdafruitIO) (cs : List Call) (data : SensorData)
    (hres : ∀ n ∈ feedKeys, io.resolves n = true)
    (hinit : ((AdafruitUploader.new (some io)).calls cs).1.feedsInitialized = true) :
    saves (((AdafruitUploader.new (some io)).calls cs).1.uploadData data).2 =
      (if data.outdoorDataValid = true then
        [ ((⟨"outdoortemp"⟩ : AdafruitIO_Feed), data.outdoorTemp),
          (⟨"outdoorhum"⟩, data.outdoorHum),
          (⟨"outdoordp"⟩, data.outdoorDew) ]
      else []) ++
      (if data.indoorDataValid = true then
        [ ((⟨"indoortemp"⟩ : AdafruitIO_Feed), data.indoorTemp),
          (⟨"indoorhum"⟩, data.indoorHum),
          (⟨"indoordp"⟩, data.indoorDew) ]
      else []) ++
      [((⟨"batteryvoltage"⟩ : AdafruitIO_Feed), data.batteryVoltage)] ∧
    (saves (((AdafruitUploader.new (some io)).calls cs).1.uploadData data).2).length =
      1 + 3 * (if data.outdoorDataValid = true then 1 else 0) +
        3 * (if data.indoorDataValid = true then 1 else 0) ∧
    (((AdafruitUploader.new (some io)).calls cs).1.uploadData scenarioRecord).2 =
      [ Effect.println "Outdoor data not valid or feeds not initialized.",
        Effect.print "Uploading indoor data: Temp=",
        Effect.printFloat (.finite 20),
        Effect.print " Hum=",
        Effect.printFloat (.finite 50),
        Effect.print " Dew=",
        Effect.printlnFloat (.finite 9),
        Effect.save ⟨"indoortemp"⟩ (.finite 20),
        Effect.save ⟨"indoorhum"⟩ (.finite 50),
        Effect.save ⟨"indoordp"⟩ (.finite 9),
        Effect.print "Uploading battery voltage: ",
        Effect.printlnFloat (.finite 0),
        Effect.save ⟨"batteryvoltage"⟩ (.finite 0) ] := by
  have hs : ((AdafruitUploader.new (some io)).calls cs).1 =
      ((AdafruitUploader.new (some io)).begin).1 := by
    rcases calls_new_cases (some io) cs with h | ⟨c, hc, -, h⟩
    · rw [h] at hinit
      exact absurd hinit (by simp [AdafruitUploader.new])
    · cases hc
      exact h
  rw [hs]
  refine ⟨saves_uploadData_begun_resolved io data hres, ?_, ?_⟩
  · rw [saves_uploadData_begun_resolved io data hres]
    cases data.outdoorDataValid <;> cases data.indoorDataValid <;> simp
  · rw [uploadData_begun_resolved io scenarioRecord hres]
    simp [scenarioRecord]

/-- C7 at the scenario record after `begin()` and a `run()` on a live
connection: three indoor saves and the battery save of `0`. -/
theorem adafruit_saves_when_resolved_witness :
    saves (((AdafruitUploader.new (some liveConnection)).calls
        [Call.begin, Call.run]).1.uploadData scenarioRecord).2 =
      [ ((⟨"indoortemp"⟩ : AdafruitIO_Feed), FloatVal.finite 20),
        (⟨"indoorhum"⟩, FloatVal.finite 50),
        (⟨"indoordp"⟩, FloatVal.finite 9),
        (⟨"batteryvoltage"⟩, FloatVal.finite 0) ] :=
  (adafruit_saves_when_resolved liveConnection [Call.begin, Call.run] scenarioRecord
    (fun _ _ => rfl) rfl).1

/-- C10: take an adapter whose connection, if it has one, resolves the seven
feed keys.  In every state reached from the constructor by a sequence of
`begin()`, `run()` and `uploadData` calls the lifecycle invariant holds (nothing
resolved, or flag set with all seven handles resolved and a connection); the
flag is set exactly when there is a connection and `begin()` is among the calls
made; once it is set no call changes the state, and `run()` and `uploadData`
never change it; and when `begin()` has run with a connection, a triple whose
validity flag is true is saved and its skip line is not printed. -/
theorem adafruit_lifecycle (io : Option AdafruitIO) (cs : List Call)
    (hres : ∀ c, io = some c → ∀ n ∈ feedKeys, c.resolves n = true) :
    ((AdafruitUploader.new io).calls cs).1.Lifecycle ∧
    (((AdafruitUploader.new io).calls cs).1.feedsInitialized = true ↔
      io.isSome = true ∧ Call.begin ∈ cs) ∧
    (∀ c, ((AdafruitUploader.new io).calls cs).1.feedsInitialized = true →
      (((AdafruitUploader.new io).calls cs).1.call c).1 =
        ((AdafruitUploader.new io).calls cs).1) ∧
    (((AdafruitUploader.new io).calls cs).1.run).1 = ((AdafruitUploader.new io).calls cs).1 ∧
    (∀ data, (((AdafruitUploader.new io).calls cs).1.uploadData data).1 =
      ((AdafruitUploader.new io).calls cs).1) ∧
    (∀ data, io.isSome = true → Call.begin ∈ cs →
      (data.outdoorDataValid = true →
        List.Sublist
          [ ((⟨"outdoortemp"⟩ : AdafruitIO_Feed), data.outdoorTemp),
            (⟨"outdoorhum"⟩, data.outdoorHum),
            (⟨"outdoordp"⟩, data.outdoorDew) ]
          (saves (((AdafruitUploader.new io).calls cs).1.uploadData data).2) ∧
        Effect.println "Outdoor data not valid or feeds not initialized." ∉
          (((AdafruitUploader.new io).calls cs).1.uploadData data).2) ∧
      (data.indoorDataValid = true →
        List.Sublist
          [ ((⟨"indoortemp"⟩ : AdafruitIO_Feed), data.indoorTemp),
            (⟨"indoorhum"⟩, data.indoorHum),
            (⟨"indoordp"⟩, data.indoorDew) ]
          (saves (((AdafruitUploader.new io).calls cs).1.uploadData data).2) ∧
        Effect.println "Indoor data not valid or feeds not initialized." ∉
          (((AdafruitUploader.new io).calls cs).1.uploadData data).2)) := by
  refine ⟨?_, ?_, ?_, run_state _, fun data => uploadData_state _ data, ?_⟩
  · cases io with
    | none =>
      rw [calls_new_none]
      exact Or.inl ⟨rfl, rfl, rfl, rfl, rfl, rfl, rfl, rfl⟩
    | some c =>
      rw [calls_new_some]
      split_ifs
      · exact lifecycle_begun c (hres c rfl)
      · exact Or.inl ⟨rfl, rfl, rfl, rfl, rfl, rfl, rfl, rfl⟩
  · cases io with
    | none =>
      rw [calls_new_none]
      simp [AdafruitUploader.new]
    | some c =>
      rw [calls_new_some]
      split_ifs with h
      · simp [AdafruitUploader.begin, AdafruitUploader.new, h]
      · simp [AdafruitUploader.new, h]
  · intro c h
    cases c with
    | begin => exact begin_state_of_initialized _ h
    | run => exact run_state _
    | uploadData d => exact uploadData_state _ d
  · intro data hio hbegin
    cases io with
    | none => simp at hio
    | some c =>
      rw [calls_new_some, if_pos hbegin, uploadData_begun_resolved c data (hres c rfl)]
      constructor
      · intro hv
        cases hi : data.indoorDataValid <;> simp [saves, hv]
      · intro hv
        cases ho : data.outdoorDataValid <;> simp [saves, hv]
        exact .cons _ (.cons _ (.cons _ (by simp)))

/-- C10 on a live connection after `uploadData`, `begin()`, `run()`, `begin()`:
the invariant holds in the state reached. -/
theorem adafruit_lifecycle_witness :
    ((AdafruitUploader.new (some liveConnection)).calls
      [Call.uploadData scenarioRecord, Call.begin, Call.run, Call.begin]).1.Lifecycle :=
  (adafruit_lifecycle (some liveConnection)
    [Call.uploadData scenarioRecord, Call.begin, Call.run, Call.begin]
    (fun _ h _ _ => by cases h; rfl)).1

end DataUploader
